import Mathlib

/-!
Verification of the UMTB camera-monitor program (src/main.py) against its
natural-language specification. The Python source is shallowly embedded:
timestamps are integers counting microseconds (mirroring the microsecond
resolution of datetime), Python exceptions are an explicit error type, and
in-place mutation is modelled by returning the updated state alongside an
Except value (so state changes made before an exception are preserved, as
they are in Python).
-/

/-- Python exceptions that the program can raise or catch. -/
inductive PyError where
  | typeError
  | ioError
  | requestException
deriving DecidableEq, Repr

/-- Possible values of the last_alert_time_gap_*_sec fields in main.py.
The initial dict (main.py lines 54-65) stores the integer 0;
reset_alert_counts (lines 97-99) stores Python None; parse_event
(lines 150/155/160) stores a datetime, modelled as microseconds. -/
inductive PyLastTime where
  | pyZero
  | pyNone
  | pyTime (t : Int)
deriving DecidableEq, Repr

/-- Per-camera entry of the camera_alerts dict (main.py lines 54-65). -/
structure CameraData where
  simple_count : Nat
  gap_10_sec : Nat
  gap_30_sec : Nat
  gap_60_sec : Nat
  last_alert_time_gap_10_sec : PyLastTime
  last_alert_time_gap_30_sec : PyLastTime
  last_alert_time_gap_60_sec : PyLastTime
deriving DecidableEq, Repr

/-- The value each per-camera entry gets at module load (main.py lines 54-65):
all counters 0 and each last_alert_time field the integer 0 (not None). -/
def initCameraData : CameraData :=
  { simple_count := 0, gap_10_sec := 0, gap_30_sec := 0, gap_60_sec := 0
    last_alert_time_gap_10_sec := .pyZero
    last_alert_time_gap_30_sec := .pyZero
    last_alert_time_gap_60_sec := .pyZero }

/-- The value each per-camera entry gets from reset_alert_counts
(main.py lines 90-100): counters 0 and last_alert_time fields None. -/
def resetCameraData : CameraData :=
  { simple_count := 0, gap_10_sec := 0, gap_30_sec := 0, gap_60_sec := 0
    last_alert_time_gap_10_sec := .pyNone
    last_alert_time_gap_30_sec := .pyNone
    last_alert_time_gap_60_sec := .pyNone }

/-- The Python value (now - last).seconds for a timedelta of d microseconds:
timedelta normalises to (days, seconds, microseconds) with
0 <= seconds < 86400, so .seconds is the whole-second part of d taken
modulo one day. Python floor division and nonnegative modulus for a
positive divisor coincide with Int./ and Int.% here. -/
def timedeltaSeconds (d : Int) : Int :=
  (d / 1000000) % 86400

/-- One gap-window update from parse_event (main.py lines 148-150, 153-155,
158-160): if the last_alert_time field is None, or the .seconds of
now minus it is at least the threshold, increment the counter and store now.
If the field still holds the integer 0 from the initial dict, Python raises
TypeError on the subtraction (datetime minus int). -/
def gap_update (last : PyLastTime) (count : Nat) (now : Int) (threshold : Int) :
    Except PyError (Nat × PyLastTime) :=
  match last with
  | .pyNone => .ok (count + 1, .pyTime now)
  | .pyZero => .error .typeError
  | .pyTime t =>
      if timedeltaSeconds (now - t) ≥ threshold then .ok (count + 1, .pyTime now)
      else .ok (count, last)

/-- The 10-second gap block of parse_event (main.py lines 147-150), applied
to a camera entry. On TypeError the entry is returned unchanged (the
exception aborts the block before any assignment). -/
def applyGap10 (st : CameraData) (now : Int) : CameraData × Except PyError Unit :=
  match gap_update st.last_alert_time_gap_10_sec st.gap_10_sec now 10 with
  | .error e => (st, .error e)
  | .ok r => ({ st with gap_10_sec := r.1, last_alert_time_gap_10_sec := r.2 }, .ok ())

/-- The 30-second gap block of parse_event (main.py lines 152-155). -/
def applyGap30 (st : CameraData) (now : Int) : CameraData × Except PyError Unit :=
  match gap_update st.last_alert_time_gap_30_sec st.gap_30_sec now 30 with
  | .error e => (st, .error e)
  | .ok r => ({ st with gap_30_sec := r.1, last_alert_time_gap_30_sec := r.2 }, .ok ())

/-- The 60-second gap block of parse_event (main.py lines 157-160). -/
def applyGap60 (st : CameraData) (now : Int) : CameraData × Except PyError Unit :=
  match gap_update st.last_alert_time_gap_60_sec st.gap_60_sec now 60 with
  | .error e => (st, .error e)
  | .ok r => ({ st with gap_60_sec := r.1, last_alert_time_gap_60_sec := r.2 }, .ok ())

/-- The counter-update sequence of parse_event (main.py lines 143-160):
increment simple_count unconditionally, then run the three gap blocks in
order. An exception in one block skips the later blocks but keeps the
mutations already made (Python mutates the shared dict in place). -/
def recordEvent (st : CameraData) (now : Int) : CameraData × Except PyError Unit :=
  let st1 := { st with simple_count := st.simple_count + 1 }
  match applyGap10 st1 now with
  | (st2, .error e) => (st2, .error e)
  | (st2, .ok _) =>
    match applyGap30 st2 now with
    | (st3, .error e) => (st3, .error e)
    | (st3, .ok _) => applyGap60 st3 now

/-- All decompositions of a character list as pre ++ sep ++ post, in order of
increasing pre. This is the candidate order in which a lazy regex group
followed by the literal sep is tried during backtracking. -/
def lazySplits (sep : List Char) : List Char → List (List Char × List Char)
  | [] => if sep.isPrefixOf ([] : List Char) then [([], [])] else []
  | c :: rest =>
      (if sep.isPrefixOf (c :: rest) then
        [(([] : List Char), (c :: rest).drop sep.length)] else []) ++
      (lazySplits sep rest).map (fun p => (c :: p.1, p.2))

/-- The characters strictly before the last closing brace of the list, or
none if the list has no closing brace. This is what the greedy tail of the
pattern, a dot-star followed by a closing brace under DOTALL, consumes. -/
def upToLastBrace : List Char → Option (List Char)
  | [] => none
  | c :: rest =>
    match upToLastBrace rest with
    | some inner => some (c :: inner)
    | none => if c = '\x7d' then some [] else none

/-- The fourth capture group of the parse_event pattern: an opening brace,
then a greedy dot-star under DOTALL, then a closing brace, so the group runs
from the opening brace after data= to the last closing brace of the input. -/
def dataGroup : List Char → Option (List Char)
  | '\x7b' :: rest =>
      (match upToLastBrace rest with
       | some inner => some ('\x7b' :: (inner ++ ['\x7d']))
       | none => none)
  | _ => none

/-- Try the parse_event pattern at one position, on the text following the
literal Code= prefix: three lazy groups each followed by their literal
separator, then the brace-delimited data group; candidates are tried in
regex backtracking order. -/
def matchGroups (s : List Char) : Option (List Char × List Char × List Char × List Char) :=
  (lazySplits ";action=".data s).findSome? fun ca =>
    (lazySplits ";index=".data ca.2).findSome? fun ai =>
      (lazySplits ";data=".data ai.2).findSome? fun di =>
        (dataGroup di.2).map fun d => (ca.1, ai.1, di.1, d)

/-- Scan for the leftmost match of the parse_event pattern: the pattern can
only start where the literal Code= occurs; at each such position the rest is
tried, and on failure scanning resumes at the next position. -/
def searchCode : List Char → Option (List Char × List Char × List Char × List Char)
  | [] => none
  | c :: rest =>
      if "Code=".data.isPrefixOf (c :: rest) then
        match matchGroups ((c :: rest).drop 5) with
        | some g => some g
        | none => searchCode rest
      else searchCode rest

/-- re.search of the event pattern on the buffer (main.py line 135),
returning the four capture groups (code, action, index, data) or none. -/
def re_search_event (buffer : String) : Option (String × String × String × String) :=
  (searchCode buffer.data).map fun g => (⟨g.1⟩, ⟨g.2.1⟩, ⟨g.2.2.1⟩, ⟨g.2.2.2⟩)

/-- Decoded JSON values, the result of json.loads. Numbers keep their raw
lexeme, which is all the program ever needs of them. -/
inductive JValue where
  | jnull
  | jbool (b : Bool)
  | jnum (raw : String)
  | jstr (s : String)
  | jarr (xs : List JValue)
  | jobj (kvs : List (String × JValue))
deriving Repr

/-- Skip JSON whitespace. -/
def skipWs : List Char → List Char
  | [] => []
  | c :: rest =>
      if c = ' ' ∨ c = '\t' ∨ c = '\n' ∨ c = '\r' then skipWs rest else c :: rest

/-- The single-character JSON string escapes accepted by json.loads. -/
def jsonEscapeChar : Char → Option Char
  | '"' => some '"'
  | '\\' => some '\\'
  | '/' => some '/'
  | 'b' => some '\x08'
  | 'f' => some '\x0c'
  | 'n' => some '\n'
  | 'r' => some '\r'
  | 't' => some '\t'
  | _ => none

/-- Value of one hexadecimal digit. -/
def hexDigitVal (c : Char) : Option Nat :=
  if '0' ≤ c ∧ c ≤ '9' then some (c.toNat - 48)
  else if 'a' ≤ c ∧ c ≤ 'f' then some (c.toNat - 87)
  else if 'A' ≤ c ∧ c ≤ 'F' then some (c.toNat - 55)
  else none

/-- Parse the body of a JSON string after its opening quote, returning the
decoded characters and the input after the closing quote. Unescaped control
characters and invalid escapes are rejected, as json.loads rejects them in
strict mode. -/
def parseJStringAux : Nat → List Char → Option (List Char × List Char)
  | 0, _ => none
  | _ + 1, [] => none
  | fuel + 1, c :: rest =>
    if c = '"' then some ([], rest)
    else if c = '\\' then
      match rest with
      | [] => none
      | e :: rest2 =>
        if e = 'u' then
          match rest2 with
          | a :: b :: c2 :: d :: rest3 =>
            (match hexDigitVal a, hexDigitVal b, hexDigitVal c2, hexDigitVal d with
             | some va, some vb, some vc, some vd =>
               (parseJStringAux fuel rest3).map fun p =>
                 (Char.ofNat (va * 4096 + vb * 256 + vc * 16 + vd) :: p.1, p.2)
             | _, _, _, _ => none)
          | _ => none
        else
          match jsonEscapeChar e with
          | some ch => (parseJStringAux fuel rest2).map fun p => (ch :: p.1, p.2)
          | none => none
    else if c.toNat < 32 then none
    else (parseJStringAux fuel rest).map fun p => (c :: p.1, p.2)

/-- Is the character a decimal digit. -/
def isDigitChar (c : Char) : Bool := decide ('0' ≤ c ∧ c ≤ '9')

/-- Lex a nonempty run of digits. -/
def lexDigits1 (s : List Char) : Option (List Char × List Char) :=
  let ds := s.takeWhile isDigitChar
  if ds.isEmpty then none else some (ds, s.drop ds.length)

/-- Lex the integer part of a JSON number: 0, or a nonzero digit then more
digits (leading zeros are rejected, as in the JSON grammar). -/
def lexJsonIntPart : List Char → Option (List Char × List Char)
  | [] => none
  | c :: rest =>
    if c = '0' then some (['0'], rest)
    else if isDigitChar c then
      some (c :: rest.takeWhile isDigitChar, rest.drop (rest.takeWhile isDigitChar).length)
    else none

/-- Lex an optional fraction part. -/
def lexFrac : List Char → Option (List Char × List Char)
  | '.' :: rest =>
    (match lexDigits1 rest with
     | some (ds, rest2) => some ('.' :: ds, rest2)
     | none => none)
  | s => some ([], s)

/-- Lex the tail of an exponent part after its introducing letter. -/
def lexExpTail (e : Char) (rest : List Char) : Option (List Char × List Char) :=
  let sr : List Char × List Char :=
    match rest with
    | '+' :: r => (['+'], r)
    | '-' :: r => (['-'], r)
    | _ => ([], rest)
  match lexDigits1 sr.2 with
  | some (ds, rest2) => some (e :: (sr.1 ++ ds), rest2)
  | none => none

/-- Lex an optional exponent part. -/
def lexExp : List Char → Option (List Char × List Char)
  | 'e' :: rest => lexExpTail 'e' rest
  | 'E' :: rest => lexExpTail 'E' rest
  | s => some ([], s)

/-- Lex a JSON number token, keeping the raw lexeme. -/
def lexJsonNumber (s : List Char) : Option (List Char × List Char) :=
  let ns : List Char × List Char :=
    match s with
    | '-' :: rest => (['-'], rest)
    | _ => ([], s)
  match lexJsonIntPart ns.2 with
  | none => none
  | some (ip, s2) =>
    match lexFrac s2 with
    | none => none
    | some (fp, s3) =>
      match lexExp s3 with
      | none => none
      | some (ep, s4) => some (ns.1 ++ ip ++ fp ++ ep, s4)

mutual

/-- Parse one JSON value, fuel-bounded. Mirrors json.loads: literals,
strings, numbers, arrays and objects, with whitespace skipped. -/
def parseJValue : Nat → List Char → Option (JValue × List Char)
  | 0, _ => none
  | fuel + 1, s =>
    match skipWs s with
    | [] => none
    | 'n' :: rest => if "ull".data.isPrefixOf rest then some (.jnull, rest.drop 3) else none
    | 't' :: rest => if "rue".data.isPrefixOf rest then some (.jbool true, rest.drop 3) else none
    | 'f' :: rest => if "alse".data.isPrefixOf rest then some (.jbool false, rest.drop 4) else none
    | '"' :: rest =>
        (match parseJStringAux (rest.length + 1) rest with
         | some (cs, rest2) => some (.jstr ⟨cs⟩, rest2)
         | none => none)
    | '[' :: rest =>
        (match skipWs rest with
         | ']' :: rest2 => some (.jarr [], rest2)
         | s1 =>
           match parseJArrElems fuel s1 with
           | some (xs, rest2) => some (.jarr xs, rest2)
           | none => none)
    | '\x7b' :: rest =>
        (match skipWs rest with
         | '\x7d' :: rest2 => some (.jobj [], rest2)
         | s1 =>
           match parseJObjMembers fuel s1 with
           | some (kvs, rest2) => some (.jobj kvs, rest2)
           | none => none)
    | s1 =>
        match lexJsonNumber s1 with
        | some (tok, rest2) => some (.jnum ⟨tok⟩, rest2)
        | none => none

/-- Parse the comma-separated elements of a nonempty JSON array, up to and
including the closing bracket. -/
def parseJArrElems : Nat → List Char → Option (List JValue × List Char)
  | 0, _ => none
  | fuel + 1, s =>
    match parseJValue fuel s with
    | none => none
    | some (v, rest) =>
      match skipWs rest with
      | ',' :: rest2 =>
        (match parseJArrElems fuel rest2 with
         | some (xs, rest3) => some (v :: xs, rest3)
         | none => none)
      | ']' :: rest2 => some ([v], rest2)
      | _ => none

/-- Parse the members of a nonempty JSON object, up to and including the
closing brace. -/
def parseJObjMembers : Nat → List Char → Option (List (String × JValue) × List Char)
  | 0, _ => none
  | fuel + 1, s =>
    match skipWs s with
    | '"' :: rest =>
      (match parseJStringAux (rest.length + 1) rest with
       | none => none
       | some (kcs, rest2) =>
         match skipWs rest2 with
         | ':' :: rest3 =>
           (match parseJValue fuel rest3 with
            | none => none
            | some (v, rest4) =>
              match skipWs rest4 with
              | ',' :: rest5 =>
                (match parseJObjMembers fuel rest5 with
                 | some (kvs, rest6) => some ((⟨kcs⟩, v) :: kvs, rest6)
                 | none => none)
              | '\x7d' :: rest5 => some ([(⟨kcs⟩, v)], rest5)
              | _ => none)
         | _ => none)
    | _ => none

end

/-- json.loads on a whole document: parse one value and require only
whitespace after it; any failure is a JSONDecodeError, modelled as none. -/
def json_loads (s : String) : Option JValue :=
  match parseJValue (s.length + 1) s.data with
  | some (v, rest) => if (skipWs rest).isEmpty then some v else none
  | none => none

/-- A single-quote character, used by Python repr of strings. -/
def singleQuote : String := String.singleton (Char.ofNat 39)

mutual

/-- Python repr of a decoded JSON value (dicts and lists as Python shows
them, strings single-quoted, true/false/null as True/False/None). -/
def pyRepr : JValue → String
  | .jnull => "None"
  | .jbool true => "True"
  | .jbool false => "False"
  | .jnum raw => raw
  | .jstr s => singleQuote ++ s ++ singleQuote
  | .jarr xs => "[" ++ pyReprList xs ++ "]"
  | .jobj kvs => "\x7b" ++ pyReprObj kvs ++ "\x7d"

/-- Comma-separated reprs of list elements. -/
def pyReprList : List JValue → String
  | [] => ""
  | [v] => pyRepr v
  | v :: rest => pyRepr v ++ ", " ++ pyReprList rest

/-- Comma-separated reprs of dict items. -/
def pyReprObj : List (String × JValue) → String
  | [] => ""
  | [kv] => singleQuote ++ kv.1 ++ singleQuote ++ ": " ++ pyRepr kv.2
  | kv :: rest => singleQuote ++ kv.1 ++ singleQuote ++ ": " ++ pyRepr kv.2 ++ ", " ++ pyReprObj rest

end

/-- Python str() of a decoded JSON value, as an f-string interpolates it:
a str is itself, everything else coincides with repr. -/
def pyStr : JValue → String
  | .jstr s => s
  | .jnull => "None"
  | .jbool true => "True"
  | .jbool false => "False"
  | .jnum raw => raw
  | .jarr xs => "[" ++ pyReprList xs ++ "]"
  | .jobj kvs => "\x7b" ++ pyReprObj kvs ++ "\x7d"

/-- Python dict.get(key, dflt) on a decoded value, followed by the f-string
str() conversion. Later duplicate keys overwrite earlier ones, so the last
binding wins; on a non-dict or a missing key the default is used. -/
def dict_get (v : JValue) (key dflt : String) : String :=
  match v with
  | .jobj kvs =>
    (match kvs.reverse.find? (fun p => p.1 == key) with
     | some p => pyStr p.2
     | none => dflt)
  | _ => dflt

/-- The alert text built by parse_event (main.py lines 162-167): banner,
display timestamp, camera name and smart-motion flag, the two data fields
defaulting to the literal string Unknown when absent. -/
def alertMessage (camera_name : String) (event_data : JValue) : String :=
  "🚨 Motion Detected at UrMedz galaxy store!" ++
  "\n📅 Time: " ++ dict_get event_data "LocaleTime" "Unknown" ++
  "\n📍 Camera: " ++ camera_name ++
  "\n🤖 Smart Motion: " ++ dict_get event_data "SmartMotionEnable" "Unknown"

/-- parse_event (main.py lines 132-172): search the buffer for the event
pattern; on a match, json-decode the data group (a JSONDecodeError is caught
and yields None); for code VideoMotion and action Start run the counter
updates and return the alert text; any other combination yields None. A
TypeError from the counter updates is not caught here and propagates, with
the mutations made so far kept. -/
def parse_event (st : CameraData) (buffer : String) (camera_name : String) (now : Int) :
    CameraData × Except PyError (Option String) :=
  match re_search_event buffer with
  | none => (st, .ok none)
  | some (code, action, _, dataBlob) =>
    match json_loads dataBlob with
    | none => (st, .ok none)
    | some event_data =>
      if code = "VideoMotion" ∧ action = "Start" then
        match recordEvent st now with
        | (st2, .ok _) => (st2, .ok (some (alertMessage camera_name event_data)))
        | (st2, .error e) => (st2, .error e)
      else (st, .ok none)

/-- One lowercase hexadecimal digit. -/
def hexDigitChar (n : Nat) : Char :=
  if n < 10 then Char.ofNat (48 + n) else Char.ofNat (87 + n)

/-- Four lowercase hexadecimal digits, as in json.dump unicode escapes. -/
def hex4 (n : Nat) : String :=
  ⟨[hexDigitChar (n / 4096 % 16), hexDigitChar (n / 256 % 16),
    hexDigitChar (n / 16 % 16), hexDigitChar (n % 16)]⟩

/-- json.dump escaping of one character with the default ensure_ascii:
the short escapes, unicode escapes for other control and non-ASCII
characters (surrogate pairs beyond the basic plane), else the character. -/
def jsonDumpChar (c : Char) : String :=
  if c = '"' then "\\\""
  else if c = '\\' then "\\\\"
  else if c = '\n' then "\\n"
  else if c = '\r' then "\\r"
  else if c = '\t' then "\\t"
  else if c = '\x08' then "\\b"
  else if c = '\x0c' then "\\f"
  else if c.toNat < 32 ∨ c.toNat ≥ 127 then
    if c.toNat < 65536 then "\\u" ++ hex4 c.toNat
    else "\\u" ++ hex4 (55296 + (c.toNat - 65536) / 1024) ++
         "\\u" ++ hex4 (56320 + (c.toNat - 65536) % 1024)
  else String.singleton c

/-- One JSON-encoded string, quotes included. -/
def jsonDumpString (s : String) : String :=
  "\"" ++ String.join (s.data.map jsonDumpChar) ++ "\""

/-- json.dump of a list of strings with indent=4, as save_persistent_queue
writes it (main.py lines 86-87): the queue snapshot file format. -/
def json_dump_list : List String → String
  | [] => "[]"
  | x :: xs =>
      "[\n    " ++ String.intercalate ",\n    " ((x :: xs).map jsonDumpString) ++ "\n]"

/-- The delivery-queue side of the process: the in-memory FIFO
message_queue, the message the worker has popped and not yet delivered (if
any), and the contents of the queue.json snapshot file (none if absent). -/
structure DeliverySystem where
  q : List String
  inFlight : Option String
  file : Option String
deriving DecidableEq, Repr

/-- save_persistent_queue (main.py lines 83-88): overwrite the snapshot
file with json.dump of list(message_queue.queue), the current in-memory
queue contents in FIFO order. The popped in-flight message is no longer in
message_queue and so is not written. -/
def save_persistent_queue (s : DeliverySystem) : DeliverySystem :=
  { s with file := some (json_dump_list s.q) }

/-- The enqueue path of listen_to_stream (main.py lines 200-201):
message_queue.put(message) then save_persistent_queue(). -/
def enqueue_and_save (s : DeliverySystem) (message : String) : DeliverySystem :=
  save_persistent_queue { s with q := s.q ++ [message] }

/-- message_queue.get() in process_message_queue (main.py line 211): block
if the queue is empty (modelled as none), else remove the head message and
hold it in the worker, where send_telegram_message retries it. -/
def worker_pop (s : DeliverySystem) : Option DeliverySystem :=
  match s.q with
  | [] => none
  | m :: rest => some { s with q := rest, inFlight := some m }

/-- The shutdown path of main (main.py lines 257-261): on the termination
signal (KeyboardInterrupt), save_persistent_queue() and exit. -/
def shutdown_persist (s : DeliverySystem) : DeliverySystem :=
  save_persistent_queue s

/-- Keys of a Python dict built from parsed JSON members: first-occurrence
order, later duplicates folded in. -/
def dictKeys (kvs : List (String × JValue)) : List String :=
  kvs.foldl (fun acc p => if acc.contains p.1 then acc else acc ++ [p.1]) []

/-- Python iteration over a decoded JSON value, as the for loop of
load_persistent_queue does: a list yields its elements, a string its
characters, a dict its keys; numbers, booleans and null are not iterable
and raise TypeError. -/
def pyIterate : JValue → Except PyError (List JValue)
  | .jarr xs => .ok xs
  | .jstr s => .ok (s.data.map fun c => .jstr (String.singleton c))
  | .jobj kvs => .ok ((dictKeys kvs).map .jstr)
  | _ => .error .typeError

/-- load_persistent_queue (main.py lines 69-81) as a function of the
snapshot file contents (none if the file does not exist), returning the
messages put on message_queue in order. Only json.JSONDecodeError is
caught (start fresh); iterating a non-iterable decoded value raises an
uncaught TypeError. -/
def load_persistent_queue (fileContents : Option String) : Except PyError (List JValue) :=
  match fileContents with
  | none => .ok []
  | some contents =>
    match json_loads contents with
    | none => .ok []
    | some v => pyIterate v

/-- Python substring test, the in operator on str (main.py line 195). -/
def pyIn (needle hay : String) : Bool :=
  hay.data.tails.any fun t => needle.data.isPrefixOf t

/-- One line of the framing loop of listen_to_stream (main.py lines
189-202), buffer management only: a non-empty line is appended to the
buffer with a newline (if line: is false for an empty line, which is
skipped); then, if the line contains the boundary marker, the accumulated
buffer is the record handed to parse_event and the buffer is cleared.
Returns the new buffer and the record handed over, if any. -/
def framerStep (buffer line : String) : String × Option String :=
  let buf := if line = "" then buffer else buffer ++ line ++ "\n"
  if pyIn "--myboundary" line then ("", some buf) else (buf, none)

/-- The framing loop over a list of received lines: all records handed to
parse_event, and the residual buffer. -/
def framerRun (buffer : String) : List String → List String × String
  | [] => ([], buffer)
  | l :: ls =>
    match framerStep buffer l with
    | (b, none) => framerRun b ls
    | (b, some r) =>
      let p := framerRun b ls
      (r :: p.1, p.2)

/-- The per-camera state touched by one connection worker of
listen_to_stream: its camera_alerts entry, the framing buffer, and the
shared delivery queue. -/
structure StreamState where
  cam : CameraData
  buffer : String
  delivery : DeliverySystem
deriving DecidableEq, Repr

/-- Processing of one received line inside the streaming loop of
listen_to_stream (main.py lines 190-202): append a non-empty line to the
buffer with a newline; if the line contains the boundary marker, run
parse_event on the buffer, enqueue and persist a produced message, and
clear the buffer. An exception from parse_event aborts the iteration
before the buffer is cleared and is returned to the enclosing try. -/
def processLine (camera_name : String) (now : Int) (s : StreamState) (line : String) :
    StreamState × Except PyError Unit :=
  let buf := if line = "" then s.buffer else s.buffer ++ line ++ "\n"
  if pyIn "--myboundary" line then
    match parse_event s.cam buf camera_name now with
    | (cam2, .error e) => ({ s with cam := cam2, buffer := buf }, .error e)
    | (cam2, .ok none) => ({ s with cam := cam2, buffer := "" }, .ok ())
    | (cam2, .ok (some m)) =>
        ({ cam := cam2, buffer := "", delivery := enqueue_and_save s.delivery m }, .ok ())
  else ({ s with buffer := buf }, .ok ())

/-- The streaming loop over a list of received lines: the first uncaught
exception stops processing of the remaining lines (it propagates to the
except clause of the worker). -/
def processLines (camera_name : String) (now : Int) :
    StreamState → List String → StreamState × Except PyError Unit
  | s, [] => (s, .ok ())
  | s, l :: ls =>
    match processLine camera_name now s l with
    | (s2, .ok _) => processLines camera_name now s2 ls
    | (s2, .error e) => (s2, .error e)

/-- The except clause of the retry loop of listen_to_stream (main.py line
203) names requests.RequestException only; any other exception leaves the
while loop and ends the worker thread. -/
def listen_catches (e : PyError) : Bool := e == .requestException

/-- The text block log_alert_counts appends per firing (main.py lines
105-113): a timestamp line, then per camera the four counters. The
Python expression value-or-0 on a counter equals the counter itself,
since the counters are nonnegative integers. -/
def alertCountsBlock (timestamp : String) (alerts : List (String × CameraData)) : String :=
  "Timestamp: " ++ timestamp ++ "\n" ++
  String.join (alerts.map fun p =>
    "Camera: " ++ p.1 ++ "\n" ++
    "00 sec gap: " ++ toString p.2.simple_count ++ "\n" ++
    "10 sec gap: " ++ toString p.2.gap_10_sec ++ "\n" ++
    "30 sec gap: " ++ toString p.2.gap_30_sec ++ "\n" ++
    "60 sec gap: " ++ toString p.2.gap_60_sec ++ "\n\n")

/-- log_alert_counts (main.py lines 103-114): append the block to the
counters log. The function has no exception handling, so a failing write
(writeOk false) raises to the caller; a successful write returns the
appended block. -/
def log_alert_counts (writeOk : Bool) (timestamp : String)
    (alerts : List (String × CameraData)) : Except PyError String :=
  if writeOk then .ok (alertCountsBlock timestamp alerts) else .error .ioError

/-- reset_alert_counts (main.py lines 90-100): every camera entry back to
zero counters and None last-alert times. -/
def reset_alert_counts (alerts : List (String × CameraData)) : List (String × CameraData) :=
  alerts.map fun p => (p.1, resetCameraData)

/-- One firing of the periodic_tasks loop body (main.py lines 221-222):
log_alert_counts() then reset_alert_counts(). Neither function nor the
loop has a try block, so an exception from the log write skips the reset
and propagates out of the thread function. -/
def periodic_fire (alerts : List (String × CameraData)) (writeOk : Bool) (timestamp : String) :
    List (String × CameraData) × Except PyError String :=
  match log_alert_counts writeOk timestamp alerts with
  | .error e => (alerts, .error e)
  | .ok blk => (reset_alert_counts alerts, .ok blk)

/-- A camera entry whose last-alert fields no longer hold the integer 0
placed by the initial dict, which is the case from the first
reset_alert_counts onwards. -/
def WFCam (st : CameraData) : Prop :=
  st.last_alert_time_gap_10_sec ≠ .pyZero ∧
  st.last_alert_time_gap_30_sec ≠ .pyZero ∧
  st.last_alert_time_gap_60_sec ≠ .pyZero

instance (st : CameraData) : Decidable (WFCam st) := by
  unfold WFCam; infer_instance

/-- A camera entry with zero counters and a recorded last-alert time of 0
in each window, used as a concrete instance in witnesses. -/
def gapSt0 : CameraData :=
  { simple_count := 0, gap_10_sec := 0, gap_30_sec := 0, gap_60_sec := 0
    last_alert_time_gap_10_sec := .pyTime 0
    last_alert_time_gap_30_sec := .pyTime 0
    last_alert_time_gap_60_sec := .pyTime 0 }

/-- Unfolded shape of recordEvent: the three gap updates applied in order
to the entry with simple_count already incremented, stopping at the first
error while keeping earlier mutations. -/
theorem recordEvent_char (sc g10 g30 g60 : Nat) (l10 l30 l60 : PyLastTime) (now : Int) :
    recordEvent ⟨sc, g10, g30, g60, l10, l30, l60⟩ now =
      (match gap_update l10 g10 now 10 with
       | .error e => (⟨sc + 1, g10, g30, g60, l10, l30, l60⟩, .error e)
       | .ok r10 =>
         match gap_update l30 g30 now 30 with
         | .error e => (⟨sc + 1, r10.1, g30, g60, r10.2, l30, l60⟩, .error e)
         | .ok r30 =>
           match gap_update l60 g60 now 60 with
           | .error e => (⟨sc + 1, r10.1, r30.1, g60, r10.2, r30.2, l60⟩, .error e)
           | .ok r60 => (⟨sc + 1, r10.1, r30.1, r60.1, r10.2, r30.2, r60.2⟩, .ok ())) := by
  simp only [recordEvent, applyGap10, applyGap30, applyGap60]
  cases h10 : gap_update l10 g10 now 10 with
  | error e => rfl
  | ok r10 =>
    dsimp only
    cases h30 : gap_update l30 g30 now 30 with
    | error e => rfl
    | ok r30 => dsimp only

/-- A successful gap update never decreases the counter. -/
theorem gap_update_count_le (last : PyLastTime) (count : Nat) (now threshold : Int)
    (r : Nat × PyLastTime) (h : gap_update last count now threshold = .ok r) :
    count ≤ r.1 := by
  obtain ⟨r1, r2⟩ := r
  cases last with
  | pyZero => simp [gap_update] at h
  | pyNone => simp [gap_update] at h; omega
  | pyTime t =>
    simp only [gap_update] at h
    split at h <;> simp at h <;> omega

/-- If a gap update increments its counter while the last-alert field held
a recorded time not later than now, at least threshold seconds (in
microseconds) really elapsed: the day-wrapped .seconds value is a lower
bound on the true elapsed time when the clock moves forward. -/
theorem gap_update_inc_sep (t now threshold : Int) (count : Nat) (r : Nat × PyLastTime)
    (h : gap_update (.pyTime t) count now threshold = .ok r)
    (hinc : count < r.1) (hmono : t ≤ now) :
    threshold * 1000000 ≤ now - t := by
  obtain ⟨r1, r2⟩ := r
  simp only [gap_update] at h
  simp only at hinc
  split at h
  · rename_i hc
    unfold timedeltaSeconds at hc
    omega
  · rename_i hc
    simp at h
    omega

/-- A gap update that increments its counter records now in the last-alert
field. -/
theorem gap_update_inc_last (last : PyLastTime) (count : Nat) (now threshold : Int)
    (r : Nat × PyLastTime) (h : gap_update last count now threshold = .ok r)
    (hinc : count < r.1) : r.2 = .pyTime now := by
  obtain ⟨r1, r2⟩ := r
  simp only at hinc ⊢
  cases last with
  | pyZero => simp [gap_update] at h
  | pyNone => simp [gap_update] at h; exact h.2.symm
  | pyTime t =>
    simp only [gap_update] at h
    split at h
    · simp at h; exact h.2.symm
    · simp at h; omega

/-- A gap update that leaves its counter unchanged leaves the last-alert
field unchanged as well. -/
theorem gap_update_noinc_last (last : PyLastTime) (count : Nat) (now threshold : Int)
    (r : Nat × PyLastTime) (h : gap_update last count now threshold = .ok r)
    (hninc : r.1 = count) : r.2 = last := by
  obtain ⟨r1, r2⟩ := r
  simp only at hninc ⊢
  cases last with
  | pyZero => simp [gap_update] at h
  | pyNone => simp [gap_update] at h; omega
  | pyTime t =>
    simp only [gap_update] at h
    split at h
    · simp at h; omega
    · simp at h; exact h.2.symm

/-- recordEvent never decreases any counter, from any state. -/
theorem recordEvent_counts_mono (st : CameraData) (now : Int) :
    st.simple_count ≤ (recordEvent st now).1.simple_count ∧
    st.gap_10_sec ≤ (recordEvent st now).1.gap_10_sec ∧
    st.gap_30_sec ≤ (recordEvent st now).1.gap_30_sec ∧
    st.gap_60_sec ≤ (recordEvent st now).1.gap_60_sec := by
  obtain ⟨sc, g10, g30, g60, l10, l30, l60⟩ := st
  rw [recordEvent_char]
  cases h10 : gap_update l10 g10 now 10 with
  | error e => simp
  | ok r10 =>
    have m10 := gap_update_count_le _ _ _ _ _ h10
    cases h30 : gap_update l30 g30 now 30 with
    | error e => simp; omega
    | ok r30 =>
      have m30 := gap_update_count_le _ _ _ _ _ h30
      cases h60 : gap_update l60 g60 now 60 with
      | error e => simp; omega
      | ok r60 =>
        have m60 := gap_update_count_le _ _ _ _ _ h60
        simp; omega

/-- An increment of the 10-second counter over a recorded last time t with
a forward-moving clock means at least 10 true seconds elapsed since t. -/
theorem recordEvent_gap10_sep (st : CameraData) (now t : Int)
    (hl : st.last_alert_time_gap_10_sec = .pyTime t) (hm : t ≤ now)
    (hi : st.gap_10_sec < (recordEvent st now).1.gap_10_sec) :
    10 * 1000000 ≤ now - t := by
  obtain ⟨sc, g10, g30, g60, l10, l30, l60⟩ := st
  simp only at hl hi
  subst hl
  rw [recordEvent_char] at hi
  cases h10 : gap_update (.pyTime t) g10 now 10 with
  | error e => rw [h10] at hi; simp at hi
  | ok r10 =>
    rw [h10] at hi
    have hlt : g10 < r10.1 := by
      cases h30 : gap_update l30 g30 now 30 with
      | error e => rw [h30] at hi; simpa using hi
      | ok r30 =>
        rw [h30] at hi
        cases h60 : gap_update l60 g60 now 60 with
        | error e => rw [h60] at hi; simpa using hi
        | ok r60 => rw [h60] at hi; simpa using hi
    exact gap_update_inc_sep t now 10 g10 r10 h10 hlt hm

/-- The 30-second analogue of recordEvent_gap10_sep. -/
theorem recordEvent_gap30_sep (st : CameraData) (now t : Int)
    (hl : st.last_alert_time_gap_30_sec = .pyTime t) (hm : t ≤ now)
    (hi : st.gap_30_sec < (recordEvent st now).1.gap_30_sec) :
    30 * 1000000 ≤ now - t := by
  obtain ⟨sc, g10, g30, g60, l10, l30, l60⟩ := st
  simp only at hl hi
  subst hl
  rw [recordEvent_char] at hi
  cases h10 : gap_update l10 g10 now 10 with
  | error e => rw [h10] at hi; simp at hi
  | ok r10 =>
    rw [h10] at hi
    cases h30 : gap_update (.pyTime t) g30 now 30 with
    | error e => rw [h30] at hi; simp at hi
    | ok r30 =>
      rw [h30] at hi
      have hlt : g30 < r30.1 := by
        cases h60 : gap_update l60 g60 now 60 with
        | error e => rw [h60] at hi; simpa using hi
        | ok r60 => rw [h60] at hi; simpa using hi
      exact gap_update_inc_sep t now 30 g30 r30 h30 hlt hm

/-- The 60-second analogue of recordEvent_gap10_sep. -/
theorem recordEvent_gap60_sep (st : CameraData) (now t : Int)
    (hl : st.last_alert_time_gap_60_sec = .pyTime t) (hm : t ≤ now)
    (hi : st.gap_60_sec < (recordEvent st now).1.gap_60_sec) :
    60 * 1000000 ≤ now - t := by
  obtain ⟨sc, g10, g30, g60, l10, l30, l60⟩ := st
  simp only at hl hi
  subst hl
  rw [recordEvent_char] at hi
  cases h10 : gap_update l10 g10 now 10 with
  | error e => rw [h10] at hi; simp at hi
  | ok r10 =>
    rw [h10] at hi
    cases h30 : gap_update l30 g30 now 30 with
    | error e => rw [h30] at hi; simp at hi
    | ok r30 =>
      rw [h30] at hi
      cases h60 : gap_update (.pyTime t) g60 now 60 with
      | error e => rw [h60] at hi; simp at hi
      | ok r60 =>
        rw [h60] at hi
        have hlt : g60 < r60.1 := by simpa using hi
        exact gap_update_inc_sep t now 60 g60 r60 h60 hlt hm

/-- The 10-second last-alert field is set to now exactly by an increment
and kept unchanged by a non-increment. -/
theorem recordEvent_gap10_last (st : CameraData) (now : Int) :
    (st.gap_10_sec < (recordEvent st now).1.gap_10_sec →
      (recordEvent st now).1.last_alert_time_gap_10_sec = .pyTime now) ∧
    ((recordEvent st now).1.gap_10_sec = st.gap_10_sec →
      (recordEvent st now).1.last_alert_time_gap_10_sec = st.last_alert_time_gap_10_sec) := by
  obtain ⟨sc, g10, g30, g60, l10, l30, l60⟩ := st
  rw [recordEvent_char]
  cases h10 : gap_update l10 g10 now 10 with
  | error e => simp
  | ok r10 =>
    cases h30 : gap_update l30 g30 now 30 with
    | error e =>
      constructor
      · intro hlt; exact gap_update_inc_last _ _ _ _ _ h10 (by simpa using hlt)
      · intro heq; exact gap_update_noinc_last _ _ _ _ _ h10 (by simpa using heq)
    | ok r30 =>
      cases h60 : gap_update l60 g60 now 60 with
      | error e =>
        constructor
        · intro hlt; exact gap_update_inc_last _ _ _ _ _ h10 (by simpa using hlt)
        · intro heq; exact gap_update_noinc_last _ _ _ _ _ h10 (by simpa using heq)
      | ok r60 =>
        constructor
        · intro hlt; exact gap_update_inc_last _ _ _ _ _ h10 (by simpa using hlt)
        · intro heq; exact gap_update_noinc_last _ _ _ _ _ h10 (by simpa using heq)

/-- The 30-second analogue of recordEvent_gap10_last. -/
theorem recordEvent_gap30_last (st : CameraData) (now : Int) :
    (st.gap_30_sec < (recordEvent st now).1.gap_30_sec →
      (recordEvent st now).1.last_alert_time_gap_30_sec = .pyTime now) ∧
    ((recordEvent st now).1.gap_30_sec = st.gap_30_sec →
      (recordEvent st now).1.last_alert_time_gap_30_sec = st.last_alert_time_gap_30_sec) := by
  obtain ⟨sc, g10, g30, g60, l10, l30, l60⟩ := st
  rw [recordEvent_char]
  cases h10 : gap_update l10 g10 now 10 with
  | error e => simp
  | ok r10 =>
    cases h30 : gap_update l30 g30 now 30 with
    | error e => simp
    | ok r30 =>
      cases h60 : gap_update l60 g60 now 60 with
      | error e =>
        constructor
        · intro hlt; exact gap_update_inc_last _ _ _ _ _ h30 (by simpa using hlt)
        · intro heq; exact gap_update_noinc_last _ _ _ _ _ h30 (by simpa using heq)
      | ok r60 =>
        constructor
        · intro hlt; exact gap_update_inc_last _ _ _ _ _ h30 (by simpa using hlt)
        · intro heq; exact gap_update_noinc_last _ _ _ _ _ h30 (by simpa using heq)

/-- The 60-second analogue of recordEvent_gap10_last. -/
theorem recordEvent_gap60_last (st : CameraData) (now : Int) :
    (st.gap_60_sec < (recordEvent st now).1.gap_60_sec →
      (recordEvent st now).1.last_alert_time_gap_60_sec = .pyTime now) ∧
    ((recordEvent st now).1.gap_60_sec = st.gap_60_sec →
      (recordEvent st now).1.last_alert_time_gap_60_sec = st.last_alert_time_gap_60_sec) := by
  obtain ⟨sc, g10, g30, g60, l10, l30, l60⟩ := st
  rw [recordEvent_char]
  cases h10 : gap_update l10 g10 now 10 with
  | error e => simp
  | ok r10 =>
    cases h30 : gap_update l30 g30 now 30 with
    | error e => simp
    | ok r30 =>
      cases h60 : gap_update l60 g60 now 60 with
      | error e => simp
      | ok r60 =>
        constructor
        · intro hlt; exact gap_update_inc_last _ _ _ _ _ h60 (by simpa using hlt)
        · intro heq; exact gap_update_noinc_last _ _ _ _ _ h60 (by simpa using heq)

/-- A gap update on a last-alert field that is not the integer 0 cannot
raise. -/
theorem gap_update_ok_of_ne (last : PyLastTime) (count : Nat) (now threshold : Int)
    (h : last ≠ .pyZero) : ∃ r, gap_update last count now threshold = .ok r := by
  cases last with
  | pyZero => exact absurd rfl h
  | pyNone => exact ⟨_, rfl⟩
  | pyTime t =>
    simp only [gap_update]
    split
    · exact ⟨_, rfl⟩
    · exact ⟨_, rfl⟩

/-- From a well-formed entry (no integer-0 last-alert field), recordEvent
completes without an exception. -/
theorem recordEvent_ok_of_WF (st : CameraData) (now : Int) (h : WFCam st) :
    ∃ st2, recordEvent st now = (st2, .ok ()) := by
  obtain ⟨sc, g10, g30, g60, l10, l30, l60⟩ := st
  obtain ⟨h1, h2, h3⟩ := h
  simp only at h1 h2 h3
  obtain ⟨r10, hr10⟩ := gap_update_ok_of_ne l10 g10 now 10 h1
  obtain ⟨r30, hr30⟩ := gap_update_ok_of_ne l30 g30 now 30 h2
  obtain ⟨r60, hr60⟩ := gap_update_ok_of_ne l60 g60 now 60 h3
  rw [recordEvent_char, hr10, hr30, hr60]
  exact ⟨_, rfl⟩

/-- C8: for every camera, between two resets, each gapped counter is
monotonically non-decreasing across recordEvent operations, and a gapped
counter never increments twice within its threshold window: whenever the
last-alert field of the window records a previous increment time t and the
clock has moved forward, a new increment implies at least the threshold of
real elapsed time since t; and the last-alert field is set to the event
time exactly when the counter increments and is unchanged otherwise. -/
theorem C8_gap_window_invariant :
    (∀ (st : CameraData) (now : Int),
        st.gap_10_sec ≤ (recordEvent st now).1.gap_10_sec ∧
        st.gap_30_sec ≤ (recordEvent st now).1.gap_30_sec ∧
        st.gap_60_sec ≤ (recordEvent st now).1.gap_60_sec) ∧
    (∀ (st : CameraData) (now t : Int),
        st.last_alert_time_gap_10_sec = .pyTime t → t ≤ now →
        st.gap_10_sec < (recordEvent st now).1.gap_10_sec →
        10 * 1000000 ≤ now - t) ∧
    (∀ (st : CameraData) (now t : Int),
        st.last_alert_time_gap_30_sec = .pyTime t → t ≤ now →
        st.gap_30_sec < (recordEvent st now).1.gap_30_sec →
        30 * 1000000 ≤ now - t) ∧
    (∀ (st : CameraData) (now t : Int),
        st.last_alert_time_gap_60_sec = .pyTime t → t ≤ now →
        st.gap_60_sec < (recordEvent st now).1.gap_60_sec →
        60 * 1000000 ≤ now - t) ∧
    (∀ (st : CameraData) (now : Int),
        (st.gap_10_sec < (recordEvent st now).1.gap_10_sec →
          (recordEvent st now).1.last_alert_time_gap_10_sec = .pyTime now) ∧
        ((recordEvent st now).1.gap_10_sec = st.gap_10_sec →
          (recordEvent st now).1.last_alert_time_gap_10_sec =
            st.last_alert_time_gap_10_sec)) ∧
    (∀ (st : CameraData) (now : Int),
        (st.gap_30_sec < (recordEvent st now).1.gap_30_sec →
          (recordEvent st now).1.last_alert_time_gap_30_sec = .pyTime now) ∧
        ((recordEvent st now).1.gap_30_sec = st.gap_30_sec →
          (recordEvent st now).1.last_alert_time_gap_30_sec =
            st.last_alert_time_gap_30_sec)) ∧
    (∀ (st : CameraData) (now : Int),
        (st.gap_60_sec < (recordEvent st now).1.gap_60_sec →
          (recordEvent st now).1.last_alert_time_gap_60_sec = .pyTime now) ∧
        ((recordEvent st now).1.gap_60_sec = st.gap_60_sec →
          (recordEvent st now).1.last_alert_time_gap_60_sec =
            st.last_alert_time_gap_60_sec)) :=
  ⟨fun st now => ⟨(recordEvent_counts_mono st now).2.1,
      (recordEvent_counts_mono st now).2.2.1, (recordEvent_counts_mono st now).2.2.2⟩,
   recordEvent_gap10_sep, recordEvent_gap30_sep, recordEvent_gap60_sep,
   recordEvent_gap10_last, recordEvent_gap30_last, recordEvent_gap60_last⟩

/-- Witness for C8: at the entry with all windows last incremented at time
0, an event 20 seconds later increments the 10-second counter, with the
separation and last-alert conclusions discharged concretely. -/
theorem C8_gap_window_invariant_witness :
    gapSt0.gap_10_sec ≤ (recordEvent gapSt0 20000000).1.gap_10_sec ∧
    (10 : Int) * 1000000 ≤ 20000000 - 0 ∧
    (recordEvent gapSt0 20000000).1.last_alert_time_gap_10_sec = .pyTime 20000000 :=
  ⟨(C8_gap_window_invariant.1 gapSt0 20000000).1,
   C8_gap_window_invariant.2.1 gapSt0 20000000 0 rfl (by decide) (by decide),
   (C8_gap_window_invariant.2.2.2.2.1 gapSt0 20000000).1 (by decide)⟩

/-- C1 (code bug): from the initial aggregator state, the first
qualifying event does not increment all four counters. The initial dict
stores the integer 0, not None, in the last-alert fields, so the
elapsed-time subtraction raises TypeError: only simple_count is
incremented, the gapped counters stay 0, and an exception replaces the
message. -/
theorem C1_first_event_from_initial_state_raises :
    parse_event initCameraData
      "Code=VideoMotion;action=Start;index=0;data=\x7b\x7d\n--myboundary\n"
      "outdoor enterence Camera" 0 =
      ({ simple_count := 1, gap_10_sec := 0, gap_30_sec := 0, gap_60_sec := 0
         last_alert_time_gap_10_sec := .pyZero
         last_alert_time_gap_30_sec := .pyZero
         last_alert_time_gap_60_sec := .pyZero }, .error .typeError) := rfl

/-- C3 (code bug): with every window last incremented at time 0, a
qualifying event one day and five seconds later elapses 86405 whole
seconds, at least every threshold, yet no gapped counter increments,
because the code compares timedelta.seconds, which wraps modulo one day
to 5. -/
theorem C3_day_gap_not_counted :
    recordEvent gapSt0 86405000000 = ({ gapSt0 with simple_count := 1 }, .ok ()) ∧
    (86405000000 - 0 : Int) / 1000000 = 86405 ∧
    ((10 : Int) ≤ 86405 ∧ (30 : Int) ≤ 86405 ∧ (60 : Int) ≤ 86405) ∧
    timedeltaSeconds (86405000000 - 0) = 5 :=
  ⟨rfl, by decide, by decide, by decide⟩

/-- C10: feeding the first qualifying event for a camera, before any
reset, through the streaming loop raises the TypeError of the integer-0
last-alert fields; the error is not requests.RequestException, so the
retry loop does not catch it and the worker thread ends, with
simple_count already incremented and the gapped counters, the queue and
the snapshot file untouched. -/
theorem C10_uncaught_typeerror_ends_worker :
    processLines "outdoor enterence Camera" 0
        ⟨initCameraData, "", ⟨[], none, none⟩⟩
        ["Code=VideoMotion;action=Start;index=0;data=\x7b\x7d", "--myboundary"] =
      (⟨{ simple_count := 1, gap_10_sec := 0, gap_30_sec := 0, gap_60_sec := 0
          last_alert_time_gap_10_sec := .pyZero
          last_alert_time_gap_30_sec := .pyZero
          last_alert_time_gap_60_sec := .pyZero },
        "Code=VideoMotion;action=Start;index=0;data=\x7b\x7d\n--myboundary\n",
        ⟨[], none, none⟩⟩, .error .typeError) ∧
    listen_catches .typeError = false ∧
    listen_catches .ioError = false ∧
    listen_catches .requestException = true :=
  ⟨rfl, rfl, rfl, rfl⟩

/-- C6: under a well-formed aggregator entry, parse_event produces an
outbound message exactly when the pattern matches with code VideoMotion
and action Start and the data blob json-decodes; the message is the alert
text embedding the camera name and the LocaleTime and SmartMotionEnable
fields, which default to the literal Unknown when absent, and each of the
three pieces occurs in the message; any other combination, an unmatched
record, or a decode failure yields no message, and no exception escapes. -/
theorem C6_extractor_exactness (st : CameraData) (hWF : WFCam st)
    (buffer camera_name : String) (now : Int) :
    (∀ m : String,
        (parse_event st buffer camera_name now).2 = .ok (some m) ↔
          ∃ idx dataBlob event_data,
            re_search_event buffer = some ("VideoMotion", "Start", idx, dataBlob) ∧
            json_loads dataBlob = some event_data ∧
            m = alertMessage camera_name event_data) ∧
    (∀ event_data : JValue,
        camera_name.data <:+: (alertMessage camera_name event_data).data ∧
        (dict_get event_data "LocaleTime" "Unknown").data <:+:
          (alertMessage camera_name event_data).data ∧
        (dict_get event_data "SmartMotionEnable" "Unknown").data <:+:
          (alertMessage camera_name event_data).data) ∧
    (∀ e : PyError, (parse_event st buffer camera_name now).2 ≠ .error e) := by
  obtain ⟨st2, hrec⟩ := recordEvent_ok_of_WF st now hWF
  refine ⟨?_, ?_, ?_⟩
  · intro m
    cases hre : re_search_event buffer with
    | none => simp [parse_event, hre]
    | some g =>
      obtain ⟨code, action, idx0, dataBlob⟩ := g
      cases hj : json_loads dataBlob with
      | none =>
        simp [parse_event, hre, hj]
        intro i d _ _ _ hd ed hjd
        subst hd
        simp [hj] at hjd
      | some ed =>
        by_cases hca : code = "VideoMotion" ∧ action = "Start"
        · obtain ⟨hc, ha⟩ := hca
          subst hc; subst ha
          simp [parse_event, hre, hj, hrec, eq_comm]
          constructor
          · intro hm
            exact ⟨idx0, dataBlob, ⟨rfl, rfl⟩, ed, hj, hm⟩
          · rintro ⟨i, d, ⟨hi, hd⟩, x, hjd, hm⟩
            subst hd
            rw [hj] at hjd
            obtain rfl : ed = x := Option.some.inj hjd
            exact hm
        · rw [not_and_or] at hca
          rcases hca with hc | ha
          · simp [parse_event, hre, hj, hc]
          · simp [parse_event, hre, hj, ha]
  · intro ed
    refine ⟨?_, ?_, ?_⟩
    · exact ⟨("🚨 Motion Detected at UrMedz galaxy store!" ++ "\n📅 Time: " ++
          dict_get ed "LocaleTime" "Unknown" ++ "\n📍 Camera: ").data,
        ("\n🤖 Smart Motion: " ++ dict_get ed "SmartMotionEnable" "Unknown").data,
        by simp [alertMessage, String.data_append]⟩
    · exact ⟨("🚨 Motion Detected at UrMedz galaxy store!" ++ "\n📅 Time: ").data,
        ("\n📍 Camera: " ++ camera_name ++ "\n🤖 Smart Motion: " ++
          dict_get ed "SmartMotionEnable" "Unknown").data,
        by simp [alertMessage, String.data_append]⟩
    · exact ⟨("🚨 Motion Detected at UrMedz galaxy store!" ++ "\n📅 Time: " ++
          dict_get ed "LocaleTime" "Unknown" ++ "\n📍 Camera: " ++ camera_name ++
          "\n🤖 Smart Motion: ").data,
        ([] : List Char),
        by simp [alertMessage, String.data_append]⟩
  · intro e
    cases hre : re_search_event buffer with
    | none => simp [parse_event, hre]
    | some g =>
      obtain ⟨code, action, idx0, dataBlob⟩ := g
      cases hj : json_loads dataBlob with
      | none => simp [parse_event, hre, hj]
      | some ed =>
        by_cases hca : code = "VideoMotion" ∧ action = "Start"
        · obtain ⟨hc, ha⟩ := hca
          subst hc; subst ha
          simp [parse_event, hre, hj, hrec]
        · rw [not_and_or] at hca
          rcases hca with hc | ha
          · simp [parse_event, hre, hj, hc]
          · simp [parse_event, hre, hj, ha]

/-- Witness for C6: at the reset state, the sample record of the specification
yields exactly the alert text with the camera name, the timestamp and the
smart-motion flag. -/
theorem C6_extractor_exactness_witness :
    (parse_event resetCameraData
        "Code=VideoMotion;action=Start;index=0;data=\x7b\"LocaleTime\":\"2024-01-01 10:00:00\",\"SmartMotionEnable\":\"true\"\x7d\n--myboundary\n"
        "customer window Camera" 7).2 =
      .ok (some ("🚨 Motion Detected at UrMedz galaxy store!\n📅 Time: 2024-01-01 10:00:00\n📍 Camera: customer window Camera\n🤖 Smart Motion: true")) :=
  ((C6_extractor_exactness resetCameraData (by decide)
      "Code=VideoMotion;action=Start;index=0;data=\x7b\"LocaleTime\":\"2024-01-01 10:00:00\",\"SmartMotionEnable\":\"true\"\x7d\n--myboundary\n"
      "customer window Camera" 7).1 _).mpr
    ⟨"0", "\x7b\"LocaleTime\":\"2024-01-01 10:00:00\",\"SmartMotionEnable\":\"true\"\x7d",
     .jobj [("LocaleTime", .jstr "2024-01-01 10:00:00"), ("SmartMotionEnable", .jstr "true")],
     rfl, rfl, rfl⟩

/-- C7 counterexample: an empty line is special-cased by the framer. The
if-line truthiness test skips appending it, so feeding an empty line then
the boundary line hands the extractor the record without the newline the
claim says the empty line contributes: the record is the boundary line
alone, not the claimed newline-prefixed one. -/
theorem C7_empty_line_counterexample :
    framerStep "" "" = ("", none) ∧
    framerRun "" ["", "--myboundary"] = (["--myboundary\n"], "") ∧
    ["--myboundary\n"] ≠ ["\n--myboundary\n"] :=
  ⟨rfl, rfl, by decide⟩

/-- C7 amended: the framer appends every non-empty incoming line
(whitespace-only lines included) to the buffer with a line terminator
before the boundary check, but skips empty lines entirely; when a line
contains the boundary marker the accumulated buffer, boundary line
included, is handed to the extractor as one record and the buffer is
cleared; the sample input of the specification produces exactly one record and
no residual buffer. -/
theorem C7_framer_amended :
    (∀ buffer line, line ≠ "" → pyIn "--myboundary" line = false →
        framerStep buffer line = (buffer ++ line ++ "\n", none)) ∧
    (∀ buffer line, line ≠ "" → pyIn "--myboundary" line = true →
        framerStep buffer line = ("", some (buffer ++ line ++ "\n"))) ∧
    (∀ buffer, framerStep buffer "" = (buffer, none)) ∧
    (∀ buffer, framerStep buffer " " = (buffer ++ " " ++ "\n", none)) ∧
    framerRun "" ["Code=A;action=B;index=0;data=\x7b\x7d", "--myboundary"] =
      (["Code=A;action=B;index=0;data=\x7b\x7d\n--myboundary\n"], "") := by
  refine ⟨?_, ?_, ?_, ?_, rfl⟩
  · intro buffer line h1 h2
    simp [framerStep, h1, h2]
  · intro buffer line h1 h2
    simp [framerStep, h1, h2]
  · intro buffer
    rfl
  · intro buffer
    rfl

/-- Witness for C7: the amended append rules applied at concrete lines. -/
theorem C7_framer_amended_witness :
    framerStep "x" "abc" = ("x" ++ "abc" ++ "\n", none) ∧
    framerStep "x" "--myboundary" = ("", some ("x" ++ "--myboundary" ++ "\n")) :=
  ⟨C7_framer_amended.1 "x" "abc" (by decide) rfl,
   C7_framer_amended.2.1 "x" "--myboundary" (by decide) rfl⟩

/-- C2 counterexample: after the delivery worker pops the only queued
message, the termination-signal persist writes the snapshot of the
remaining in-memory queue, which is empty: the mid-flight message does
not appear in the persisted snapshot (the snapshot text is the empty
JSON array). -/
theorem C2_midflight_counterexample :
    worker_pop ⟨["alert"], none, none⟩ = some ⟨[], some "alert", none⟩ ∧
    (shutdown_persist ⟨[], some "alert", none⟩).file = some "[]" ∧
    pyIn "alert" "[]" = false :=
  ⟨rfl, rfl, rfl⟩

/-- C2 amended: on the termination signal the process persists exactly the
current in-memory delivery queue before exiting; a message mid-flight has
already been popped from that queue by the delivery worker, so the
persisted snapshot is the serialization of the remaining messages and the
popped message is absent from it. -/
theorem C2_shutdown_persist_amended (m : String) (rest : List String) (f : Option String) :
    worker_pop ⟨m :: rest, none, f⟩ = some ⟨rest, some m, f⟩ ∧
    (shutdown_persist ⟨rest, some m, f⟩).q = rest ∧
    (shutdown_persist ⟨rest, some m, f⟩).file = some (json_dump_list rest) :=
  ⟨rfl, rfl, rfl⟩

/-- C9: every enqueue appends the message to the in-memory FIFO and then
rewrites the snapshot file to the json dump of the entire current queue
contents in FIFO order, overwriting whatever snapshot was there before
(the new file contents do not depend on the old ones). -/
theorem C9_enqueue_rewrites_snapshot (s : DeliverySystem) (m : String) :
    (enqueue_and_save s m).q = s.q ++ [m] ∧
    (enqueue_and_save s m).file = some (json_dump_list (s.q ++ [m])) ∧
    (∀ t : DeliverySystem, t.q = s.q →
      (enqueue_and_save t m).file = (enqueue_and_save s m).file) := by
  refine ⟨rfl, rfl, ?_⟩
  intro t ht
  simp [enqueue_and_save, save_persistent_queue, ht]

/-- Witness for C9 at a concrete queue, message and two different prior
snapshots. -/
theorem C9_enqueue_rewrites_snapshot_witness :
    (enqueue_and_save ⟨["a"], none, some "old"⟩ "b").q = ["a", "b"] ∧
    (enqueue_and_save ⟨["a"], none, some "old"⟩ "b").file =
      (enqueue_and_save ⟨["a"], none, none⟩ "b").file :=
  ⟨(C9_enqueue_rewrites_snapshot ⟨["a"], none, some "old"⟩ "b").1,
   ((C9_enqueue_rewrites_snapshot ⟨["a"], none, some "old"⟩ "b").2.2
      ⟨["a"], none, none⟩ rfl).symm⟩

/-- C4 counterexample: a snapshot whose contents are valid JSON but not an
iterable value, the number 42, makes loading raise an uncaught TypeError
instead of the logged-and-discarded empty queue the claim requires: only
json.JSONDecodeError is caught. -/
theorem C4_nonarray_snapshot_counterexample :
    load_persistent_queue (some "42") = .error .typeError ∧
    (Except.error .typeError : Except PyError (List JValue)) ≠ .ok [] :=
  ⟨rfl, fun h => Except.noConfusion h⟩

/-- C4 amended: a snapshot that fails JSON decoding is discarded and the
process starts with an empty queue, and a well-formed snapshot (a JSON
array) is enqueued in its original order; but a snapshot whose contents
are valid JSON of a non-iterable shape raises an uncaught TypeError, so
the corrupt-snapshot recovery covers only syntactically invalid JSON. -/
theorem C4_load_persistent_queue_amended :
    (∀ contents, json_loads contents = none →
        load_persistent_queue (some contents) = .ok []) ∧
    (∀ contents msgs, json_loads contents = some (.jarr msgs) →
        load_persistent_queue (some contents) = .ok msgs) ∧
    load_persistent_queue none = .ok [] ∧
    load_persistent_queue (some "42") = .error .typeError := by
  refine ⟨?_, ?_, rfl, rfl⟩
  · intro c h
    simp [load_persistent_queue, h]
  · intro c msgs h
    simp [load_persistent_queue, h, pyIterate]

/-- Witness for C4 amended: a syntactically corrupt snapshot loads as the
empty queue, and a two-message array snapshot loads both messages in
order. -/
theorem C4_load_persistent_queue_amended_witness :
    load_persistent_queue (some "\x7b") = .ok [] ∧
    load_persistent_queue (some "[\"a\", \"b\"]") = .ok [.jstr "a", .jstr "b"] :=
  ⟨C4_load_persistent_queue_amended.1 "\x7b" rfl,
   C4_load_persistent_queue_amended.2.1 "[\"a\", \"b\"]" [.jstr "a", .jstr "b"] rfl⟩

/-- C5 counterexample: when the periodic log write fails, the firing
returns the camera counters unchanged together with the uncaught IOError,
so the in-memory reset the claim promises does not happen (the reset
would have replaced the entry, which differs from the unchanged one). -/
theorem C5_log_failure_skips_reset_counterexample :
    periodic_fire [("outdoor enterence Camera", gapSt0)] false "2024-01-01 10:00:00" =
      ([("outdoor enterence Camera", gapSt0)], .error .ioError) ∧
    reset_alert_counts [("outdoor enterence Camera", gapSt0)] =
      [("outdoor enterence Camera", resetCameraData)] ∧
    gapSt0 ≠ resetCameraData :=
  ⟨rfl, rfl, by decide⟩

/-- C5 amended: log_alert_counts and periodic_tasks have no exception
handling, so a failed log write propagates out of the firing, the
counters are not reset on that firing, and the periodic thread ends; on a
successful write the counters are reset and the block is appended. -/
theorem C5_periodic_fire_amended (alerts : List (String × CameraData)) (timestamp : String) :
    periodic_fire alerts false timestamp = (alerts, .error .ioError) ∧
    periodic_fire alerts true timestamp =
      (reset_alert_counts alerts, .ok (alertCountsBlock timestamp alerts)) :=
  ⟨rfl, rfl⟩
